import Mathlib

/-!
Verification of the DigiGold reconciliation engine (`app.py`).

The embedding mirrors the Python source:
* `clean_key` — key normalization (`app.py`, `clean_key`);
* `classify_by_decision_table` — the decision-table classifier;
* `completeFinfinity` / `reconcile_files` — the enriched-report pipeline
  (column validation, status-map construction with `drop_duplicates` on the
  raw key, left merges on the cleaned key, `fillna` sentinels).

A cell that pandas reads as NaN/null is modelled as `Option.none`; a present
string cell is `some s`.
-/

/-- Python substring test `needle in hay` on lists of characters. -/
def strContainsAux (needle : List Char) : List Char → Bool
  | [] => needle.isEmpty
  | c :: rest => needle.isPrefixOf (c :: rest) || strContainsAux needle rest

/-- Python substring test `needle in hay` on strings. -/
def strContains (hay needle : String) : Bool :=
  strContainsAux needle.toList hay.toList

/-- Python `str.upper()` (ASCII-faithful). -/
def pyUpper (s : String) : String := String.mk (s.data.map Char.toUpper)

/-- Python `str.lower()` (ASCII-faithful). -/
def pyLower (s : String) : String := String.mk (s.data.map Char.toLower)

/-- Python `str.strip()`: drop leading and trailing whitespace. -/
def pyStrip (s : String) : String :=
  String.mk (((s.data.dropWhile Char.isWhitespace).reverse.dropWhile Char.isWhitespace).reverse)

/-- `clean_key` from `app.py`: NaN becomes `""`, else strip and lowercase. -/
def clean_key (value : Option String) : String :=
  match value with
  | none => ""
  | some s => pyLower (pyStrip s)

/-- Canonicalization of an order/gateway-axis status inside the classifier:
`str(v).strip().upper()` and NaN to `"MISSING"` (`app.py` lines 33-34). -/
def canonUpper (v : Option String) : String :=
  match v with
  | none => "MISSING"
  | some s => pyUpper (pyStrip s)

/-- Canonicalization of the vault-axis status inside the classifier:
`str(v).strip().lower()` and NaN to `"missing"` (`app.py` line 35). -/
def canonLower (v : Option String) : String :=
  match v with
  | none => "missing"
  | some s => pyLower (pyStrip s)

/-- Rule 1 predicate (`app.py` line 41). -/
def rule1Cond (fin cf aug : String) : Bool :=
  (fin == "PAID" || fin == "ACTIVE") && cf == "SUCCESS" && strContains aug "not cancelled"

/-- Rule 2 predicate (`app.py` line 45). -/
def rule2Cond (fin cf aug : String) : Bool :=
  (fin == "PAID" || fin == "ACTIVE") && cf == "SUCCESS" && strContains aug "cancelled"

/-- Rule 3 predicate (`app.py` line 49). -/
def rule3Cond (fin cf aug : String) : Bool :=
  fin == "PENDING" && cf == "SUCCESS" && strContains aug "not cancelled"

/-- Rule 4 predicate (`app.py` line 53). -/
def rule4Cond (fin cf aug : String) : Bool :=
  fin == "FAILED" && cf == "SUCCESS" && strContains aug "not cancelled"

/-- Rule 5 predicate (`app.py` line 57). -/
def rule5Cond (cf : String) : Bool := cf == "FAILED"

/-- Rule 6 predicate (`app.py` line 61). -/
def rule6Cond (cf : String) : Bool := strContains cf "USER" && strContains cf "DROP"

/-- Rule 7 predicate (`app.py` line 65). -/
def rule7Cond (fin cf : String) : Bool := fin == "PENDING" && cf == "PENDING"

/-- Rule 8 predicate (`app.py` line 69). -/
def rule8Cond (fin cf : String) : Bool := fin == "ACTIVE" && cf == "FAILED"

/-- Rule 9 predicate (`app.py` line 73). -/
def rule9Cond (fin cf : String) : Bool := fin == "PAID" && cf == "FAILED"

/-- Rule 10 predicate (`app.py` line 77). -/
def rule10Cond (cf aug : String) : Bool := cf == "SUCCESS" && aug == "missing"

/-- Rule 11 predicate (`app.py` line 81). -/
def rule11Cond (cf : String) : Bool := cf == "PENDING"

/-- Rule 12 predicate (`app.py` line 85). -/
def rule12Cond (fin : String) : Bool := fin == "FAILED"

/-- The first-match-wins rule chain of `classify_by_decision_table`, applied
to the already-canonicalized statuses (`app.py` lines 40-89). -/
def ruleEval (fin cf aug : String) : String × String × Nat :=
  bif rule1Cond fin cf aug then
    ("FULLY_RECONCILED", "NO ACTION", 1)
  else bif rule2Cond fin cf aug then
    ("REFUND_REQUIRED", "REFUND REQUIRED", 4)
  else bif rule3Cond fin cf aug then
    ("SYNC_PENDING", "SYNC / MONITOR", 2)
  else bif rule4Cond fin cf aug then
    ("GATEWAY_SUCCESS_INTERNAL_FAIL", "INVESTIGATE", 3)
  else bif rule5Cond cf then
    ("PAYMENT_FAILED", "IGNORE", 1)
  else bif rule6Cond cf then
    ("USER_DROPPED", "IGNORE", 1)
  else bif rule7Cond fin cf then
    ("PAYMENT_IN_PROGRESS", "WAIT / RETRY", 2)
  else bif rule8Cond fin cf then
    ("ORDER_ACTIVE_PAYMENT_FAILED", "CANCEL ORDER", 3)
  else bif rule9Cond fin cf then
    ("INCONSISTENT_STATE", "INVESTIGATE", 4)
  else bif rule10Cond cf aug then
    ("PAYMENT_SUCCESS_ORDER_MISSING", "INVESTIGATE / CREATE ORDER", 4)
  else bif rule11Cond cf then
    ("PAYMENT_NOT_CONFIRMED", "WAIT / RETRY", 2)
  else bif rule12Cond fin then
    ("INTERNAL_FAILURE", "INVESTIGATE", 3)
  else
    ("UNCATEGORIZED", "INVESTIGATE", 3)

/-- `classify_by_decision_table` from `app.py`: canonicalize each axis, then
evaluate the rule chain. -/
def classify_by_decision_table (fin cf aug : Option String) : String × String × Nat :=
  ruleEval (canonUpper fin) (canonUpper cf) (canonLower aug)

example : classify_by_decision_table (some "PAID") (some "SUCCESS") (some "not cancelled")
    = ("FULLY_RECONCILED", "NO ACTION", 1) := by decide

example : classify_by_decision_table (some "PAID") (some "SUCCESS") (some "cancelled")
    = ("REFUND_REQUIRED", "REFUND REQUIRED", 4) := by decide

example : classify_by_decision_table (some " paid ") (some "failed") none
    = ("PAYMENT_FAILED", "IGNORE", 1) := by decide

example : classify_by_decision_table none none none
    = ("UNCATEGORIZED", "INVESTIGATE", 3) := by decide

example : classify_by_decision_table (some "PENDING") none none
    = ("UNCATEGORIZED", "INVESTIGATE", 3) := by decide

example : classify_by_decision_table (some "FAILED") none none
    = ("INTERNAL_FAILURE", "INVESTIGATE", 3) := by decide

/-! ## The reconciliation pipeline (`reconcile_files`) -/

/-- One Finfinity (order-ledger) row: the two key cells and the optional
`Order Status` cell. A `none` cell is a pandas NaN. -/
structure FinRow where
  orderId : Option String
  mtxId : Option String
  orderStatus : Option String
deriving DecidableEq, Repr

/-- One counterpart (Cashfree or Augmont) row: its key cell and its
`Transaction Status` cell. -/
structure CpRow where
  key : Option String
  status : Option String
deriving DecidableEq, Repr

/-- The Finfinity input table. The Booleans record which columns exist. -/
structure FinTable where
  hasMtxCol : Bool
  hasOrdCol : Bool
  hasStatusCol : Bool
  rows : List FinRow
deriving DecidableEq, Repr

/-- A counterpart input table (Cashfree keyed by `Order Id`, Augmont keyed
by `Merchant Transaction Id`). -/
structure CpTable where
  hasKeyCol : Bool
  hasStatusCol : Bool
  rows : List CpRow
deriving DecidableEq, Repr

/-- pandas `drop_duplicates(subset=[k])`: keep the first-seen row for each
value of `f` (here `f` extracts the RAW key cell), in original row order. -/
def dropDupByAux {α β : Type} [DecidableEq β] (f : α → β) (seen : List β) : List α → List α
  | [] => []
  | x :: xs =>
      if f x ∈ seen then dropDupByAux f seen xs
      else x :: dropDupByAux f (f x :: seen) xs

/-- pandas `drop_duplicates` keyed by `f`, first occurrence kept. -/
def dropDupBy {α β : Type} [DecidableEq β] (f : α → β) (l : List α) : List α :=
  dropDupByAux f [] l

/-- pandas `fillna(d)` on a single cell. -/
def fillna (d : String) (v : Option String) : String := v.getD d

/-- The status map built for a counterpart source: `drop_duplicates` on the
raw key column, as in `app.py` lines 197 and 209. -/
def statusMap (t : CpTable) : List CpRow :=
  dropDupBy (fun r => r.key) t.rows

/-- Rows of the status map whose cleaned key equals `c`: the match set of
the pandas left merge on the cleaned-key column. -/
def statusMatches (t : CpTable) (c : String) : List CpRow :=
  (statusMap t).filter (fun r => clean_key r.key = c)

/-- The status values a single order row receives for one counterpart axis
in the complete enriched view: if the source has no status column the
scalar `"MISSING"`; otherwise the left merge keeps the row once with a null
status when no match exists, or once per match, and `fillna("MISSING")`
replaces nulls (`app.py` lines 196-217). -/
def statusCandidates (t : CpTable) (c : String) : List String :=
  if t.hasStatusCol then
    if (statusMatches t c).isEmpty then [fillna "MISSING" none]
    else (statusMatches t c).map (fun r => fillna "MISSING" r.status)
  else ["MISSING"]

/-- One row of the complete enriched report (`COMPLETE_FINFINITY`). -/
structure CRow where
  finRow : FinRow
  ordClean : String
  mtxClean : String
  inCF : Bool
  inAug : Bool
  finStatus : Option String
  cfStatus : String
  augStatus : String
deriving DecidableEq, Repr

/-- The complete enriched view (`app.py` lines 185-230): every Finfinity
row, with cleaned keys, membership flags, the three resolved statuses; the
two left merges may repeat a Finfinity row once per status-map match. -/
def completeFinfinity (fin : FinTable) (cf aug : CpTable) : List CRow :=
  fin.rows.flatMap (fun fr =>
    (statusCandidates cf (clean_key fr.orderId)).flatMap (fun cs =>
      (statusCandidates aug (clean_key fr.mtxId)).map (fun as2 =>
        { finRow := fr
          ordClean := clean_key fr.orderId
          mtxClean := clean_key fr.mtxId
          inCF := cf.rows.any (fun r => clean_key r.key = clean_key fr.orderId)
          inAug := aug.rows.any (fun r => clean_key r.key = clean_key fr.mtxId)
          finStatus := if fin.hasStatusCol then fr.orderStatus else some "MISSING"
          cfStatus := cs
          augStatus := as2 })))

/-- The classification columns added to an enriched row
(`app.py` lines 220-227). -/
def classifyRow (r : CRow) : String × String × Nat :=
  classify_by_decision_table r.finStatus (some r.cfStatus) (some r.augStatus)

/-- `reconcile_files` from `app.py`: the four column validations in source
order, then the enriched report; an error message means no workbook. -/
def reconcile_files (fin : FinTable) (cf aug : CpTable) : Except String (List CRow) :=
  if fin.hasMtxCol = false then Except.error "Finfinity file needs 'Merchant Transaction ID' column"
  else if fin.hasOrdCol = false then Except.error "Finfinity file needs 'Order Id' column"
  else if cf.hasKeyCol = false then Except.error "Cashfree file needs 'Order Id' column"
  else if aug.hasKeyCol = false then Except.error "Augmont file needs 'Merchant Transaction Id' column"
  else Except.ok (completeFinfinity fin cf aug)

example :
    completeFinfinity
      ⟨true, true, false, [⟨some "O1", some "T1", none⟩]⟩
      ⟨true, true, [⟨some "o1 ", some "SUCCESS"⟩]⟩
      ⟨true, true, [⟨some "t1", some "not cancelled"⟩]⟩
    = [⟨⟨some "O1", some "T1", none⟩, "o1", "t1", true, true,
        some "MISSING", "SUCCESS", "not cancelled"⟩] := by decide

/-! ## Theorems about the classifier -/

/-- C1 (counterexample): with order status `"PAID"` and gateway status
`"FAILED"`, vault status `"cancelled"`, the classifier returns the rule-5
result `PAYMENT_FAILED / IGNORE / 1`, not the row-9 result
`INCONSISTENT_STATE / INVESTIGATE / 4`. -/
theorem paid_failed_counterexample :
    classify_by_decision_table (some "PAID") (some "FAILED") (some "cancelled")
      = ("PAYMENT_FAILED", "IGNORE", 1) ∧
    classify_by_decision_table (some "PAID") (some "FAILED") (some "cancelled")
      ≠ ("INCONSISTENT_STATE", "INVESTIGATE", 4) := by
  decide

/-- C1 (amended): for every vault-axis status string `v`, classifying
order=`"PAID"`, gateway=`"FAILED"` returns `PAYMENT_FAILED / IGNORE / 1`,
because rule 5 (gateway FAILED) precedes row 9 in the first-match-wins
chain, leaving row 9 unreachable. -/
theorem paid_failed_is_payment_failed (v : String) :
    classify_by_decision_table (some "PAID") (some "FAILED") (some v)
      = ("PAYMENT_FAILED", "IGNORE", 1) := by
  have h1 : canonUpper (some "PAID") = "PAID" := by decide
  have h2 : canonUpper (some "FAILED") = "FAILED" := by decide
  unfold classify_by_decision_table
  rw [h1, h2]
  unfold ruleEval
  have e1 : rule1Cond "PAID" "FAILED" (canonLower (some v)) = false := by
    unfold rule1Cond
    cases hn : strContains (canonLower (some v)) "not cancelled" <;> decide
  have e2 : rule2Cond "PAID" "FAILED" (canonLower (some v)) = false := by
    unfold rule2Cond
    cases hc : strContains (canonLower (some v)) "cancelled" <;> decide
  have e3 : rule3Cond "PAID" "FAILED" (canonLower (some v)) = false := by
    unfold rule3Cond
    cases hn : strContains (canonLower (some v)) "not cancelled" <;> decide
  have e4 : rule4Cond "PAID" "FAILED" (canonLower (some v)) = false := by
    unfold rule4Cond
    cases hn : strContains (canonLower (some v)) "not cancelled" <;> decide
  rw [e1, e2, e3, e4]
  rfl

/-- C4: the triple (order `"PAID"`, gateway `"SUCCESS"`, vault
`"not cancelled"`) satisfies rule 2's naive substring test for
`"cancelled"` as well, yet resolves to rule 1's
`FULLY_RECONCILED / NO ACTION / 1` because rule 1 is tried first. -/
theorem rule_order_not_cancelled :
    classify_by_decision_table (some "PAID") (some "SUCCESS") (some "not cancelled")
      = ("FULLY_RECONCILED", "NO ACTION", 1) ∧
    strContains (canonLower (some "not cancelled")) "cancelled" = true ∧
    strContains (canonLower (some "not cancelled")) "not cancelled" = true := by
  decide

/-- The classification results reachable by `ruleEval`: the results of
rules 1-7 and 10-12 and the default. Rows 8 and 9 are missing: both
require gateway `"FAILED"`, which rule 5 already captured. -/
def reachableResults : List (String × String × Nat) :=
  [("FULLY_RECONCILED", "NO ACTION", 1),
   ("REFUND_REQUIRED", "REFUND REQUIRED", 4),
   ("SYNC_PENDING", "SYNC / MONITOR", 2),
   ("GATEWAY_SUCCESS_INTERNAL_FAIL", "INVESTIGATE", 3),
   ("PAYMENT_FAILED", "IGNORE", 1),
   ("USER_DROPPED", "IGNORE", 1),
   ("PAYMENT_IN_PROGRESS", "WAIT / RETRY", 2),
   ("PAYMENT_SUCCESS_ORDER_MISSING", "INVESTIGATE / CREATE ORDER", 4),
   ("PAYMENT_NOT_CONFIRMED", "WAIT / RETRY", 2),
   ("INTERNAL_FAILURE", "INVESTIGATE", 3),
   ("UNCATEGORIZED", "INVESTIGATE", 3)]

/-- Every `ruleEval` output lies in `reachableResults`; in particular the
rule-8 and rule-9 rows are never produced. -/
lemma ruleEval_mem_reachable (f c a : String) :
    ruleEval f c a ∈ reachableResults := by
  unfold ruleEval
  cases h1 : rule1Cond f c a with
  | true =>
    simp only [Bool.cond_true]
    decide
  | false =>
  simp only [Bool.cond_false]
  cases h2 : rule2Cond f c a with
  | true =>
    simp only [Bool.cond_true]
    decide
  | false =>
  simp only [Bool.cond_false]
  cases h3 : rule3Cond f c a with
  | true =>
    simp only [Bool.cond_true]
    decide
  | false =>
  simp only [Bool.cond_false]
  cases h4 : rule4Cond f c a with
  | true =>
    simp only [Bool.cond_true]
    decide
  | false =>
  simp only [Bool.cond_false]
  cases h5 : rule5Cond c with
  | true =>
    simp only [Bool.cond_true]
    decide
  | false =>
  simp only [Bool.cond_false]
  cases h6 : rule6Cond c with
  | true =>
    simp only [Bool.cond_true]
    decide
  | false =>
  simp only [Bool.cond_false]
  cases h7 : rule7Cond f c with
  | true =>
    simp only [Bool.cond_true]
    decide
  | false =>
  simp only [Bool.cond_false]
  cases h8 : rule8Cond f c with
  | true =>
    exfalso
    simp only [rule8Cond, Bool.and_eq_true, beq_iff_eq] at h8
    simp only [rule5Cond, beq_eq_false_iff_ne] at h5
    exact h5 h8.2
  | false =>
  simp only [Bool.cond_false]
  cases h9 : rule9Cond f c with
  | true =>
    exfalso
    simp only [rule9Cond, Bool.and_eq_true, beq_iff_eq] at h9
    simp only [rule5Cond, beq_eq_false_iff_ne] at h5
    exact h5 h9.2
  | false =>
  simp only [Bool.cond_false]
  cases h10 : rule10Cond c a with
  | true =>
    simp only [Bool.cond_true]
    decide
  | false =>
  simp only [Bool.cond_false]
  cases h11 : rule11Cond c with
  | true =>
    simp only [Bool.cond_true]
    decide
  | false =>
  simp only [Bool.cond_false]
  cases h12 : rule12Cond f with
  | true =>
    simp only [Bool.cond_true]
    decide
  | false => decide

/-- `classify_by_decision_table` restated through `ruleEval`'s image. -/
lemma classify_mem_reachable (f g v : Option String) :
    classify_by_decision_table f g v ∈ reachableResults :=
  ruleEval_mem_reachable (canonUpper f) (canonUpper g) (canonLower v)

/-- C10: any input whose gateway axis canonicalizes to `"FAILED"` yields
`PAYMENT_FAILED / IGNORE / 1` whatever the other axes hold; consequently
`ORDER_ACTIVE_PAYMENT_FAILED / CANCEL ORDER / 3` (rule 8) is unreachable,
since rule 8 requires gateway `"FAILED"` but rule 5 fires first. -/
theorem gateway_failed_dominates :
    (∀ f g v : Option String, canonUpper g = "FAILED" →
      classify_by_decision_table f g v = ("PAYMENT_FAILED", "IGNORE", 1)) ∧
    (∀ f g v : Option String,
      classify_by_decision_table f g v ≠ ("ORDER_ACTIVE_PAYMENT_FAILED", "CANCEL ORDER", 3)) := by
  constructor
  · intro f g v hg
    unfold classify_by_decision_table
    rw [hg]
    unfold ruleEval
    have e1 : rule1Cond (canonUpper f) "FAILED" (canonLower v) = false := by
      unfold rule1Cond
      simp only [(by decide : ("FAILED" == "SUCCESS") = false),
        Bool.and_false, Bool.false_and]
    have e2 : rule2Cond (canonUpper f) "FAILED" (canonLower v) = false := by
      unfold rule2Cond
      simp only [(by decide : ("FAILED" == "SUCCESS") = false),
        Bool.and_false, Bool.false_and]
    have e3 : rule3Cond (canonUpper f) "FAILED" (canonLower v) = false := by
      unfold rule3Cond
      simp only [(by decide : ("FAILED" == "SUCCESS") = false),
        Bool.and_false, Bool.false_and]
    have e4 : rule4Cond (canonUpper f) "FAILED" (canonLower v) = false := by
      unfold rule4Cond
      simp only [(by decide : ("FAILED" == "SUCCESS") = false),
        Bool.and_false, Bool.false_and]
    rw [e1, e2, e3, e4]
    rfl
  · intro f g v heq
    have h := classify_mem_reachable f g v
    rw [heq] at h
    exact absurd h (by decide)

/-- C10 (witness): a concrete gateway value canonicalizing to `"FAILED"`. -/
theorem gateway_failed_dominates_witness :
    classify_by_decision_table (some "ACTIVE") (some " failed ") (some "x")
      = ("PAYMENT_FAILED", "IGNORE", 1) :=
  gateway_failed_dominates.1 (some "ACTIVE") (some " failed ") (some "x") (by decide)

/-- C3: the classifier is total with priority in {1,2,3,4}; a triple
matching none of rules 1-12 resolves to `UNCATEGORIZED / INVESTIGATE / 3`. -/
theorem classify_total_default :
    (∀ f g v : Option String,
      (classify_by_decision_table f g v).2.2 = 1 ∨
      (classify_by_decision_table f g v).2.2 = 2 ∨
      (classify_by_decision_table f g v).2.2 = 3 ∨
      (classify_by_decision_table f g v).2.2 = 4) ∧
    (∀ f g v : Option String,
      rule1Cond (canonUpper f) (canonUpper g) (canonLower v) = false →
      rule2Cond (canonUpper f) (canonUpper g) (canonLower v) = false →
      rule3Cond (canonUpper f) (canonUpper g) (canonLower v) = false →
      rule4Cond (canonUpper f) (canonUpper g) (canonLower v) = false →
      rule5Cond (canonUpper g) = false →
      rule6Cond (canonUpper g) = false →
      rule7Cond (canonUpper f) (canonUpper g) = false →
      rule8Cond (canonUpper f) (canonUpper g) = false →
      rule9Cond (canonUpper f) (canonUpper g) = false →
      rule10Cond (canonUpper g) (canonLower v) = false →
      rule11Cond (canonUpper g) = false →
      rule12Cond (canonUpper f) = false →
      classify_by_decision_table f g v = ("UNCATEGORIZED", "INVESTIGATE", 3)) := by
  constructor
  · intro f g v
    have h := classify_mem_reachable f g v
    simp only [reachableResults, List.mem_cons, List.not_mem_nil, or_false] at h
    rcases h with h | h | h | h | h | h | h | h | h | h | h <;> rw [h] <;> decide
  · intro f g v h1 h2 h3 h4 h5 h6 h7 h8 h9 h10 h11 h12
    unfold classify_by_decision_table ruleEval
    rw [h1, h2, h3, h4, h5, h6, h7, h8, h9, h10, h11, h12]
    rfl

/-- C3 (witness): a concrete triple matching none of rules 1-12 is
classified `UNCATEGORIZED / INVESTIGATE / 3`. -/
theorem classify_total_default_witness :
    classify_by_decision_table (some "X") (some "Y") (some "Z")
      = ("UNCATEGORIZED", "INVESTIGATE", 3) :=
  classify_total_default.2 (some "X") (some "Y") (some "Z")
    (by decide) (by decide) (by decide) (by decide) (by decide) (by decide)
    (by decide) (by decide) (by decide) (by decide) (by decide) (by decide)

/-- The priority each action string carries in the decision table. -/
def actionPriority (a : String) : Nat :=
  if a = "NO ACTION" then 1
  else if a = "REFUND REQUIRED" then 4
  else if a = "SYNC / MONITOR" then 2
  else if a = "INVESTIGATE" then 3
  else if a = "IGNORE" then 1
  else if a = "WAIT / RETRY" then 2
  else if a = "CANCEL ORDER" then 3
  else if a = "INVESTIGATE / CREATE ORDER" then 4
  else 0

/-- Every reachable classification carries the priority determined by its
action string; the one table row pairing INVESTIGATE with priority 4
(row 9) is unreachable because rule 5 precedes it. -/
lemma classify_priority_eq_actionPriority (f g v : Option String) :
    (classify_by_decision_table f g v).2.2
      = actionPriority (classify_by_decision_table f g v).2.1 := by
  have h := classify_mem_reachable f g v
  simp only [reachableResults, List.mem_cons, List.not_mem_nil, or_false] at h
  rcases h with h | h | h | h | h | h | h | h | h | h | h <;> rw [h] <;> decide

/-- C2: the action component functionally determines the priority: two
classifications with the same action string have the same priority. -/
theorem action_determines_priority (f₁ g₁ v₁ f₂ g₂ v₂ : Option String)
    (h : (classify_by_decision_table f₁ g₁ v₁).2.1
        = (classify_by_decision_table f₂ g₂ v₂).2.1) :
    (classify_by_decision_table f₁ g₁ v₁).2.2
      = (classify_by_decision_table f₂ g₂ v₂).2.2 := by
  rw [classify_priority_eq_actionPriority, classify_priority_eq_actionPriority, h]

/-- C2 (witness): two triples landing on different rules with the same
action `INVESTIGATE` receive the same priority. -/
theorem action_determines_priority_witness :
    (classify_by_decision_table (some "FAILED") none none).2.2
      = (classify_by_decision_table none none none).2.2 :=
  action_determines_priority (some "FAILED") none none none none none (by decide)

/-! ## Theorems about the enriched-report pipeline -/

/-- A one-row Finfinity table used as a concrete input. -/
def finB : FinTable := ⟨true, true, false, [⟨some "a1", some "t1", none⟩]⟩

/-- A Cashfree table whose two distinct raw keys share the cleaned key
`"a1"`, so `drop_duplicates` on the raw key keeps both. -/
def cfDup : CpTable := ⟨true, true, [⟨some "A1", some "S1"⟩, ⟨some "a1", some "S2"⟩]⟩

/-- A Cashfree table with distinct cleaned keys. -/
def cfNoDup : CpTable := ⟨true, true, [⟨some "a1", some "S1"⟩, ⟨some "b2", none⟩]⟩

/-- A Cashfree table whose only row has a null status cell. -/
def cfNullStatus : CpTable := ⟨true, true, [⟨some "a1", none⟩]⟩

/-- An empty counterpart table without a status column. -/
def augEmpty : CpTable := ⟨true, false, []⟩

/-- An Augmont table that lacks the `Transaction Status` column. -/
def augNoStatus : CpTable := ⟨true, false, [⟨some "t1", some "ignored"⟩]⟩

/-- C5 (counterexample): with the Augmont status column absent, the
enriched report's vault-axis status is the upper-case `"MISSING"`, not the
lower-case `"missing"` the claim requires. -/
theorem vault_sentinel_counterexample :
    (completeFinfinity finB cfNoDup augNoStatus).map (fun r => r.augStatus) = ["MISSING"] ∧
    (completeFinfinity finB cfNoDup augNoStatus).map (fun r => r.augStatus) ≠ ["missing"] := by
  decide

/-- C5 (amended): when the vault table has no status column, every enriched
row's vault-axis status is the literal upper-case `"MISSING"` (line 217 of
`app.py` assigns the same upper-case sentinel used for the other axes). -/
theorem vault_sentinel_uppercase (fin : FinTable) (cf aug : CpTable)
    (haug : aug.hasStatusCol = false) :
    ∀ r ∈ completeFinfinity fin cf aug, r.augStatus = "MISSING" := by
  intro r hr
  simp only [completeFinfinity, List.mem_flatMap, List.mem_map] at hr
  obtain ⟨fr, hfr, cs, hcs, as2, has2, rfl⟩ := hr
  simp [statusCandidates, haug] at has2
  exact has2

/-- C5 (witness): the amended statement evaluated on concrete tables. -/
theorem vault_sentinel_uppercase_witness :
    (⟨⟨some "a1", some "t1", none⟩, "a1", "t1", true, true,
      some "MISSING", "S1", "MISSING"⟩ : CRow).augStatus = "MISSING" :=
  vault_sentinel_uppercase finB cfNoDup augNoStatus rfl _ (by decide)

/-- C6 (counterexample): two Cashfree rows with distinct raw keys but the
same cleaned key both survive `drop_duplicates`, and the left merge then
duplicates the single Finfinity row: 2 report rows from 1 order row. -/
theorem report_row_count_counterexample :
    (completeFinfinity finB cfDup augEmpty).length = 2 ∧
    finB.rows.length = 1 ∧
    (completeFinfinity finB cfDup augEmpty).length ≠ finB.rows.length := by
  decide

/-- A counterpart table whose deduplicated status map has pairwise distinct
cleaned keys (no two raw keys collide after normalization). -/
abbrev cleanKeyCollisionFree (t : CpTable) : Prop :=
  ((statusMap t).map (fun r => clean_key r.key)).Nodup

/-- Filtering on the value of `f` picks at most one element from a list on
which `f` is duplicate-free. -/
lemma length_filter_le_one_of_nodup_map {α β : Type} [DecidableEq β] (f : α → β) (c : β)
    (l : List α) (h : (l.map f).Nodup) :
    (l.filter (fun x => decide (f x = c))).length ≤ 1 := by
  induction l with
  | nil => simp
  | cons x xs ih =>
    simp only [List.map_cons, List.nodup_cons] at h
    by_cases hx : f x = c
    · rw [List.filter_cons_of_pos (by simpa using hx)]
      have hnil : xs.filter (fun y => decide (f y = c)) = [] := by
        refine List.filter_eq_nil_iff.mpr ?_
        intro a ha hpa
        have hfa : f a = f x := by
          rw [(by simpa using hpa : f a = c), hx]
        exact h.1 (hfa ▸ List.mem_map_of_mem f ha)
      rw [hnil]
      simp
    · rw [List.filter_cons_of_neg (by simpa using hx)]
      exact ih h.2

/-- Under `cleanKeyCollisionFree`, each axis contributes exactly one status
per order row (both when a match exists and when the sentinel fills in). -/
lemma statusCandidates_length_one (t : CpTable) (c : String)
    (h : cleanKeyCollisionFree t) :
    (statusCandidates t c).length = 1 := by
  unfold statusCandidates
  cases ht : t.hasStatusCol with
  | false => simp [ht]
  | true =>
    cases hm : (statusMatches t c).isEmpty with
    | true => simp [ht, hm]
    | false =>
      have hle0 : (List.filter (fun r => decide (clean_key r.key = c)) (statusMap t)).length ≤ 1 :=
        length_filter_le_one_of_nodup_map (fun r => clean_key r.key) c (statusMap t) h
      have hle : (statusMatches t c).length ≤ 1 := hle0
      have hne : statusMatches t c ≠ [] := by simpa using hm
      have hge : 0 < (statusMatches t c).length := List.length_pos.mpr hne
      simp [ht, hm, List.length_map]
      omega

/-- A flat map whose blocks all have length one preserves the length. -/
lemma length_flatMap_of_forall_one {α β : Type} (l : List α) (f : α → List β)
    (h : ∀ a ∈ l, (f a).length = 1) : (l.flatMap f).length = l.length := by
  induction l with
  | nil => simp
  | cons x xs ih =>
    simp only [List.flatMap_cons, List.length_append, List.length_cons]
    rw [h x (List.mem_cons_self x xs), ih (fun a ha => h a (List.mem_cons_of_mem x ha))]
    omega

/-- C6 (amended): each order-ledger row produces exactly one enriched
report row provided no two surviving counterpart records share a cleaned
key; with such a collision, the left merge repeats the order row once per
match (the counterexample shows 2 rows from 1). -/
theorem report_row_count_eq (fin : FinTable) (cf aug : CpTable)
    (hcf : cleanKeyCollisionFree cf) (haug : cleanKeyCollisionFree aug) :
    (completeFinfinity fin cf aug).length = fin.rows.length := by
  unfold completeFinfinity
  apply length_flatMap_of_forall_one
  intro fr _
  exact (length_flatMap_of_forall_one _ _
    (fun cs _ => by
      rw [List.length_map]
      exact statusCandidates_length_one aug _ haug)).trans
    (statusCandidates_length_one cf _ hcf)

/-- C6 (witness): collision-free concrete tables give one row per order. -/
theorem report_row_count_eq_witness :
    (completeFinfinity finB cfNoDup augEmpty).length = finB.rows.length :=
  report_row_count_eq finB cfNoDup augEmpty (by decide) (by decide)

/-- C7 (counterexample): two Cashfree rows with distinct raw keys `"A1"`
and `"a1"` both normalize to `"a1"`; both survive `drop_duplicates` on the
raw key, so the normalized-key lookup yields two records, not at most one. -/
theorem lookup_at_most_one_counterexample :
    statusMatches cfDup "a1" = [⟨some "A1", some "S1"⟩, ⟨some "a1", some "S2"⟩] ∧
    1 < (statusMatches cfDup "a1").length := by
  decide

/-- Filtering the deduplicated list for one key value keeps exactly the
first original occurrence, for any starting `seen` set. -/
lemma dropDupByAux_filter_eq {α β : Type} [DecidableEq β] (f : α → β) (k : β)
    (l : List α) :
    ∀ seen : List β,
      (dropDupByAux f seen l).filter (fun x => decide (f x = k)) =
        if k ∈ seen then [] else (l.filter (fun x => decide (f x = k))).take 1 := by
  induction l with
  | nil =>
    intro seen
    by_cases hk : k ∈ seen <;> simp [dropDupByAux, hk]
  | cons x xs ih =>
    intro seen
    simp only [dropDupByAux]
    by_cases hx : f x ∈ seen
    · rw [if_pos hx, ih seen]
      by_cases hk : k ∈ seen
      · rw [if_pos hk, if_pos hk]
      · rw [if_neg hk, if_neg hk]
        have hxk : ¬ f x = k := fun he => hk (he ▸ hx)
        rw [List.filter_cons_of_neg (by simpa using hxk)]
    · rw [if_neg hx]
      by_cases hxk : f x = k
      · subst hxk
        rw [if_neg hx]
        rw [List.filter_cons_of_pos (by simp), List.filter_cons_of_pos (by simp),
          ih (f x :: seen), if_pos (List.mem_cons_self (f x) seen)]
        simp
      · rw [List.filter_cons_of_neg (by simpa using hxk),
          List.filter_cons_of_neg (by simpa using hxk), ih (f x :: seen)]
        have hkx : ¬ k = f x := fun he => hxk he.symm
        by_cases hk : k ∈ seen
        · rw [if_pos (List.mem_cons_of_mem _ hk), if_pos hk]
        · rw [if_neg (by simp [hkx, hk]), if_neg hk]

/-- C7 (amended): the counterpart status map drops duplicates by the RAW
key only: for each raw key it keeps exactly the first-seen record in
original row order; records with distinct raw keys sharing a cleaned key
all remain, so the cleaned-key lookup is not at-most-one in general. -/
theorem dedup_first_seen_raw_key (t : CpTable) (k : Option String) :
    (statusMap t).filter (fun r => r.key = k)
      = (t.rows.filter (fun r => r.key = k)).take 1 := by
  unfold statusMap dropDupBy
  rw [dropDupByAux_filter_eq (fun r => r.key) k t.rows []]
  simp

/-- C8 (counterexample): a matching counterpart row exists for cleaned key
`"a1"` but its status cell is null; `fillna` turns the merged null into the
sentinel `"MISSING"`, so the sentinel appears even though a counterpart
exists. -/
theorem status_unmodified_counterexample :
    (completeFinfinity finB cfNullStatus augEmpty).map (fun r => r.cfStatus) = ["MISSING"] ∧
    statusMatches cfNullStatus "a1" ≠ [] := by
  decide

/-- C8 (amended): with a status column present, a matching counterpart's
non-null raw status is passed through unmodified; the sentinel `"MISSING"`
is substituted both when no counterpart matches and when the matching
counterpart's own status cell is null (the post-merge `fillna` cannot
distinguish the two). -/
theorem status_resolution_cases (t : CpTable) (c : String)
    (h : t.hasStatusCol = true) :
    (∀ r ∈ statusMatches t c, ∀ s, r.status = some s → s ∈ statusCandidates t c) ∧
    (statusMatches t c = [] → statusCandidates t c = ["MISSING"]) ∧
    (∀ r ∈ statusMatches t c, r.status = none → "MISSING" ∈ statusCandidates t c) := by
  refine ⟨?_, ?_, ?_⟩
  · intro r hr s hs
    have hne : (statusMatches t c).isEmpty = false := by
      cases hm : (statusMatches t c).isEmpty with
      | false => rfl
      | true =>
        rw [List.isEmpty_iff.mp hm] at hr
        exact absurd hr (List.not_mem_nil r)
    simp only [statusCandidates, h, hne, if_true, Bool.false_eq_true, if_false]
    refine List.mem_map.mpr ⟨r, hr, ?_⟩
    rw [hs]
    rfl
  · intro he
    simp [statusCandidates, h, he, fillna]
  · intro r hr hnone
    have hne : (statusMatches t c).isEmpty = false := by
      cases hm : (statusMatches t c).isEmpty with
      | false => rfl
      | true =>
        rw [List.isEmpty_iff.mp hm] at hr
        exact absurd hr (List.not_mem_nil r)
    simp only [statusCandidates, h, hne, if_true, Bool.false_eq_true, if_false]
    refine List.mem_map.mpr ⟨r, hr, ?_⟩
    rw [hnone]
    rfl

/-- C8 (witness): the null-status counterpart row makes the sentinel
appear among the resolved statuses. -/
theorem status_resolution_cases_witness :
    "MISSING" ∈ statusCandidates cfNullStatus "a1" :=
  (status_resolution_cases cfNullStatus "a1" rfl).2.2 ⟨some "a1", none⟩ (by decide) rfl

/-- C9: each missing required key column fails the run with the exact
human-readable message naming the column and source, checked in source
order before any row is touched, and no report rows are produced. -/
theorem missing_column_validation (fin : FinTable) (cf aug : CpTable) :
    (fin.hasMtxCol = false →
      reconcile_files fin cf aug
        = Except.error "Finfinity file needs 'Merchant Transaction ID' column") ∧
    (fin.hasMtxCol = true → fin.hasOrdCol = false →
      reconcile_files fin cf aug
        = Except.error "Finfinity file needs 'Order Id' column") ∧
    (fin.hasMtxCol = true → fin.hasOrdCol = true → cf.hasKeyCol = false →
      reconcile_files fin cf aug
        = Except.error "Cashfree file needs 'Order Id' column") ∧
    (fin.hasMtxCol = true → fin.hasOrdCol = true → cf.hasKeyCol = true →
      aug.hasKeyCol = false →
      reconcile_files fin cf aug
        = Except.error "Augmont file needs 'Merchant Transaction Id' column") ∧
    ((fin.hasMtxCol = false ∨ fin.hasOrdCol = false ∨
        cf.hasKeyCol = false ∨ aug.hasKeyCol = false) →
      ∀ out, reconcile_files fin cf aug ≠ Except.ok out) := by
  refine ⟨?_, ?_, ?_, ?_, ?_⟩
  · intro h1
    simp [reconcile_files, h1]
  · intro h1 h2
    simp [reconcile_files, h1, h2]
  · intro h1 h2 h3
    simp [reconcile_files, h1, h2, h3]
  · intro h1 h2 h3 h4
    simp [reconcile_files, h1, h2, h3, h4]
  · rintro (h | h | h | h) out
    · simp [reconcile_files, h]
    · cases hm : fin.hasMtxCol <;> simp [reconcile_files, h, hm]
    · cases hm : fin.hasMtxCol <;> cases ho : fin.hasOrdCol <;>
        simp [reconcile_files, h, hm, ho]
    · cases hm : fin.hasMtxCol <;> cases ho : fin.hasOrdCol <;>
        cases hc : cf.hasKeyCol <;> simp [reconcile_files, h, hm, ho, hc]

/-- C9 (witness): a Finfinity table lacking the transaction-key column is
rejected with the corresponding message. -/
theorem missing_column_validation_witness :
    reconcile_files ⟨false, true, false, []⟩ cfNoDup augEmpty
      = Except.error "Finfinity file needs 'Merchant Transaction ID' column" :=
  (missing_column_validation ⟨false, true, false, []⟩ cfNoDup augEmpty).1 rfl
